import Mathlib

set_option linter.unusedVariables false

/-!
Shallow embedding of the cudart result layer (`src/cudart/result.rs`) of the
cudarc repository.

The repository is a thin wrapper over the native CUDA runtime: every wrapped
operation performs one foreign call, inspects its status code, and either
returns the value the callee wrote into an out-parameter or a typed error.
The generated bindings module `sys` is not part of the sources under `src/`,
so the native runtime is modelled as an explicit oracle (`CudaRuntime`): for
each foreign entry point the oracle fixes the status code the call returns
and the value it writes into the out-parameter on success.

Two effects of the Rust code are made explicit in the embedding:
  * every sys-level call records itself in a trace (`List ForeignCall`), so
    "exactly one foreign call, no retries" is the statement that a wrapped
    operation's trace has length one;
  * `MaybeUninit` buffers are modelled as `Option`-valued cells that the
    foreign call fills only when it reports success, and `assume_init` reads
    the cell, yielding `none` (undefined behavior) when the cell was never
    filled.  A wrapped operation therefore returns
    `Option (Except CudartError _)`: the outer `none` marks a read of an
    uninitialized buffer, and proving the result is always `some _` proves
    the buffer is read only on the success path.
-/

/-- Mirror of [sys::cudaError_t], the native status enumeration.  The sys
bindings are generated code not present under `src/`, so the enumeration is
modelled as a wrapped numeric code, with the distinguished success value
below. -/
structure cudaError_t where
  code : Nat
deriving DecidableEq

/-- Modelled from the spec: the distinguished success value of the native
status enumeration ("the distinguished `success` value maps to an ok
result"); in the native header its numeric value is 0. -/
def cudaError_t.cudaSuccess : cudaError_t := ⟨0⟩

/-- Mirror of `CudartError(pub sys::cudaError_t)` from `result.rs`: a newtype
carrying the raw status code. -/
structure CudartError where
  code : cudaError_t
deriving DecidableEq

/-- The `#[derive(PartialEq)]` implementation on `CudartError`: structural
comparison of the single stored field. -/
def CudartError.eq (a b : CudartError) : Bool :=
  a.code == b.code

/-- `cudaError_t::result` from `result.rs`: `cudaSuccess` becomes `Ok(())`,
every other status becomes `Err(CudartError(self))`.  The Rust `match` with a
wildcard arm is rendered as a decidable comparison with the success value. -/
def cudaError_t.result (self : cudaError_t) : Except CudartError Unit :=
  if self = cudaError_t.cudaSuccess then Except.ok () else Except.error (CudartError.mk self)

/-- Mirror of `pub type CudartDevice = ::core::ffi::c_int` from `result.rs`. -/
abbrev CudartDevice := Int

/-- Mirror of [sys::cudaDeviceAttr], the fixed attribute enumeration owned by
the native library; modelled as its numeric discriminant. -/
abbrev cudaDeviceAttr := Nat

/-- Mirror of [sys::cudaFunction_t], an opaque kernel-function handle;
modelled as a numeric handle value. -/
abbrev cudaFunction_t := Nat

/-- Mirror of [sys::cudaDeviceProp]: an opaque structured property record
filled in-place by the native library.  Only `totalGlobalMem` (a `size_t`,
the total device memory in bytes) is read by the wrapper; the remaining
fields are collapsed into an opaque residue. -/
structure cudaDeviceProp where
  totalGlobalMem : Nat
  rest : Nat
deriving DecidableEq

/-- One foreign call crossing into the native runtime, with its arguments;
traces of these model the side effects of the wrapper functions. -/
inductive ForeignCall where
  | cudaGetDevice
  | cudaGetDeviceCount
  | cudaGetDeviceProperties_v2 (device : CudartDevice)
  | cudaDeviceGetAttribute (attr : cudaDeviceAttr) (device : CudartDevice)
  | cudaOccupancyAvailableDynamicSMemPerBlock
      (f : cudaFunction_t) (numBlocks blockSize : Int)
  | cudaOccupancyMaxActiveBlocksPerMultiprocessor
      (f : cudaFunction_t) (blockSize : Int) (dynamicSMemSize : Nat)
  | cudaOccupancyMaxActiveBlocksPerMultiprocessorWithFlags
      (f : cudaFunction_t) (blockSize : Int) (dynamicSMemSize : Nat) (flags : Nat)
  | cudaGetErrorName (e : cudaError_t)
  | cudaGetErrorString (e : cudaError_t)
deriving DecidableEq

/-- The native runtime as an oracle: for each foreign entry point, the status
code it returns and the value it writes through its out-parameter when it
succeeds.  Strings are byte sequences behind the `*const c_char` returned by
the error-introspection entry points. -/
structure CudaRuntime where
  getDevice : cudaError_t × CudartDevice
  getDeviceCount : cudaError_t × Int
  getDeviceProperties : CudartDevice → cudaError_t × cudaDeviceProp
  deviceGetAttribute : cudaDeviceAttr → CudartDevice → cudaError_t × Int
  occupancyAvailableDynamicSMemPerBlock :
    cudaFunction_t → Int → Int → cudaError_t × Nat
  occupancyMaxActiveBlocksPerMultiprocessor :
    cudaFunction_t → Int → Nat → cudaError_t × Int
  occupancyMaxActiveBlocksPerMultiprocessorWithFlags :
    cudaFunction_t → Int → Nat → Nat → cudaError_t × Int
  getErrorName : cudaError_t → List Char
  getErrorString : cudaError_t → List Char

/-- Mirror of Rust `core::mem::MaybeUninit`: a cell that may not hold a
value yet. -/
structure MaybeUninit (α : Type) where
  val : Option α

/-- `MaybeUninit::uninit()`: the cell starts without a value. -/
def MaybeUninit.uninit {α : Type} : MaybeUninit α := ⟨none⟩

/-- `MaybeUninit::assume_init()`: reading the cell.  A read of a cell that
was never filled is undefined behavior, modelled as `none`. -/
def MaybeUninit.assume_init {α : Type} (m : MaybeUninit α) : Option α := m.val

namespace sys

/-- Modelled from the spec: the foreign entry point behind `device::get`.
"allocate uninitialized output storage ..., pass its address to the foreign
call, check the returned status, and only then treat the storage as
initialized" — the callee writes through the pointer when it succeeds and
gives no guarantee about the pointee otherwise.  Returns the status, the
pointee after the call, and the trace entry. -/
def cudaGetDevice (rt : CudaRuntime) (dev : CudartDevice) :
    cudaError_t × CudartDevice × List ForeignCall :=
  let r := rt.getDevice
  (r.1, if r.1 = cudaError_t.cudaSuccess then r.2 else dev, [ForeignCall.cudaGetDevice])

/-- Modelled from the spec: the foreign entry point behind
`device::get_count`; fills the out-parameter only on success (the spec's
invariant makes the pointee unreliable on failure). -/
def cudaGetDeviceCount (rt : CudaRuntime) (count : MaybeUninit Int) :
    cudaError_t × MaybeUninit Int × List ForeignCall :=
  let r := rt.getDeviceCount
  (r.1, if r.1 = cudaError_t.cudaSuccess then ⟨some r.2⟩ else count,
    [ForeignCall.cudaGetDeviceCount])

/-- Modelled from the spec: the foreign entry point behind
`device::get_property` and `device::total_mem`; fills the property record
only on success. -/
def cudaGetDeviceProperties_v2 (rt : CudaRuntime) (prop : MaybeUninit cudaDeviceProp)
    (device : CudartDevice) :
    cudaError_t × MaybeUninit cudaDeviceProp × List ForeignCall :=
  let r := rt.getDeviceProperties device
  (r.1, if r.1 = cudaError_t.cudaSuccess then ⟨some r.2⟩ else prop,
    [ForeignCall.cudaGetDeviceProperties_v2 device])

/-- Modelled from the spec: the foreign entry point behind
`device::get_attribute`; fills the out-parameter only on success. -/
def cudaDeviceGetAttribute (rt : CudaRuntime) (value : MaybeUninit Int)
    (attr : cudaDeviceAttr) (device : CudartDevice) :
    cudaError_t × MaybeUninit Int × List ForeignCall :=
  let r := rt.deviceGetAttribute attr device
  (r.1, if r.1 = cudaError_t.cudaSuccess then ⟨some r.2⟩ else value,
    [ForeignCall.cudaDeviceGetAttribute attr device])

/-- Modelled from the spec: the foreign entry point behind
`occupancy::available_dynamic_shared_mem_per_block`; fills the out-parameter
only on success. -/
def cudaOccupancyAvailableDynamicSMemPerBlock (rt : CudaRuntime)
    (dynamicSmemSize : MaybeUninit Nat) (f : cudaFunction_t)
    (numBlocks blockSize : Int) :
    cudaError_t × MaybeUninit Nat × List ForeignCall :=
  let r := rt.occupancyAvailableDynamicSMemPerBlock f numBlocks blockSize
  (r.1, if r.1 = cudaError_t.cudaSuccess then ⟨some r.2⟩ else dynamicSmemSize,
    [ForeignCall.cudaOccupancyAvailableDynamicSMemPerBlock f numBlocks blockSize])

/-- Modelled from the spec: the foreign entry point behind
`occupancy::max_active_block_per_multiprocessor`; fills the out-parameter
only on success. -/
def cudaOccupancyMaxActiveBlocksPerMultiprocessor (rt : CudaRuntime)
    (numBlocks : MaybeUninit Int) (f : cudaFunction_t)
    (blockSize : Int) (dynamicSmemSize : Nat) :
    cudaError_t × MaybeUninit Int × List ForeignCall :=
  let r := rt.occupancyMaxActiveBlocksPerMultiprocessor f blockSize dynamicSmemSize
  (r.1, if r.1 = cudaError_t.cudaSuccess then ⟨some r.2⟩ else numBlocks,
    [ForeignCall.cudaOccupancyMaxActiveBlocksPerMultiprocessor f blockSize dynamicSmemSize])

/-- Modelled from the spec: the foreign entry point behind
`occupancy::max_active_block_per_multiprocessor_with_flags`; fills the
out-parameter only on success. -/
def cudaOccupancyMaxActiveBlocksPerMultiprocessorWithFlags (rt : CudaRuntime)
    (numBlocks : MaybeUninit Int) (f : cudaFunction_t)
    (blockSize : Int) (dynamicSmemSize : Nat) (flags : Nat) :
    cudaError_t × MaybeUninit Int × List ForeignCall :=
  let r := rt.occupancyMaxActiveBlocksPerMultiprocessorWithFlags f blockSize dynamicSmemSize flags
  (r.1, if r.1 = cudaError_t.cudaSuccess then ⟨some r.2⟩ else numBlocks,
    [ForeignCall.cudaOccupancyMaxActiveBlocksPerMultiprocessorWithFlags
      f blockSize dynamicSmemSize flags])

/-- Modelled from the spec: `cudaGetErrorName`, the foreign query returning a
pointer to the NUL-terminated symbolic name of a status code ("a short
symbolic name ... obtained by additional foreign calls"). -/
def cudaGetErrorName (rt : CudaRuntime) (e : cudaError_t) :
    List Char × List ForeignCall :=
  (rt.getErrorName e, [ForeignCall.cudaGetErrorName e])

/-- Modelled from the spec: `cudaGetErrorString`, the foreign query returning
a pointer to the NUL-terminated human-readable description of a status
code. -/
def cudaGetErrorString (rt : CudaRuntime) (e : cudaError_t) :
    List Char × List ForeignCall :=
  (rt.getErrorString e, [ForeignCall.cudaGetErrorString e])

end sys

/-- `CudartError::error_name` from `result.rs`: one call to
`sys::cudaGetErrorName` on the stored code, the resulting pointer wrapped as
a `CStr` (modelled as the character list itself). -/
def CudartError.error_name (self : CudartError) (rt : CudaRuntime) :
    List Char × List ForeignCall :=
  let r := sys.cudaGetErrorName rt self.code
  (r.1, r.2)

/-- `CudartError::error_string` from `result.rs`: one call to
`sys::cudaGetErrorString` on the stored code, the resulting pointer wrapped
as a `CStr`. -/
def CudartError.error_string (self : CudartError) (rt : CudaRuntime) :
    List Char × List ForeignCall :=
  let r := sys.cudaGetErrorString rt self.code
  (r.1, r.2)

/-- Modelled from the spec: the Debug rendering of the raw status code by the
generated sys enumeration (the sys bindings and their derived `Debug` are not
under `src/`; the spec asks for "the raw code", rendered here as its decimal
digits). -/
def cudaError_t.fmtDebug (c : cudaError_t) : String :=
  toString c.code

/-- Rust's Debug rendering of a `&CStr`: the bytes inside double quotes. -/
def cstrFmtDebug (s : List Char) : String :=
  "\"" ++ String.mk s ++ "\""

/-- The `Debug` implementation on `CudartError` from `result.rs`: fetches the
description via `error_string`, then renders
`debug_tuple("CudartError").field(&self.0).field(&err_str)`, i.e.
`CudartError(<code>, <quoted description>)`, together with the foreign calls
made along the way. -/
def CudartError.fmtDebug (self : CudartError) (rt : CudaRuntime) :
    String × List ForeignCall :=
  let r := self.error_string rt
  ("CudartError" ++ "(" ++ cudaError_t.fmtDebug self.code ++ ", " ++ cstrFmtDebug r.1 ++ ")",
    r.2)

/-- The `Display` implementation on `CudartError` from `result.rs`:
`write!(f, "\x7bself:?\x7d")`, i.e. exactly the Debug rendering. -/
def CudartError.fmtDisplay (self : CudartError) (rt : CudaRuntime) :
    String × List ForeignCall :=
  self.fmtDebug rt

/-- `init` from `result.rs`: `pub fn init() {}` — an empty body, hence unit
result and no foreign call. -/
def init : Unit × List ForeignCall :=
  ((), [])

namespace device

/-- `device::get` from `result.rs`: a zero-initialized local, one call to
`sys::cudaGetDevice` with its address, the `?` early return on a non-success
status, otherwise the (possibly updated) local. -/
def get (rt : CudaRuntime) : Except CudartError CudartDevice × List ForeignCall :=
  let dev : CudartDevice := 0
  let r := sys.cudaGetDevice rt dev
  match r.1.result with
  | Except.error e => (Except.error e, r.2.2)
  | Except.ok _ => (Except.ok r.2.1, r.2.2)

/-- `device::get_count` from `result.rs`: an uninitialized local, one call to
`sys::cudaGetDeviceCount`, the `?` early return on a non-success status,
otherwise `assume_init` on the local.  The outer `Option` is `none` exactly
when `assume_init` reads a cell the callee never filled. -/
def get_count (rt : CudaRuntime) :
    Option (Except CudartError Int) × List ForeignCall :=
  let count : MaybeUninit Int := MaybeUninit.uninit
  let r := sys.cudaGetDeviceCount rt count
  match r.1.result with
  | Except.error e => (some (Except.error e), r.2.2)
  | Except.ok _ =>
    match r.2.1.assume_init with
    | none => (none, r.2.2)
    | some v => (some (Except.ok v), r.2.2)

/-- `device::get_property` from `result.rs`: an uninitialized property
record, one call to `sys::cudaGetDeviceProperties_v2`, the `?` early return
on a non-success status, otherwise `assume_init` on the record. -/
def get_property (rt : CudaRuntime) (device : CudartDevice) :
    Option (Except CudartError cudaDeviceProp) × List ForeignCall :=
  let prop : MaybeUninit cudaDeviceProp := MaybeUninit.uninit
  let r := sys.cudaGetDeviceProperties_v2 rt prop device
  match r.1.result with
  | Except.error e => (some (Except.error e), r.2.2)
  | Except.ok _ =>
    match r.2.1.assume_init with
    | none => (none, r.2.2)
    | some p => (some (Except.ok p), r.2.2)

/-- `device::total_mem` from `result.rs`: same body as `get_property` except
that on success it returns `prop.assume_init().totalGlobalMem as usize` (the
field is already a `size_t`, so the cast is the identity on the modelled
value). -/
def total_mem (rt : CudaRuntime) (device : CudartDevice) :
    Option (Except CudartError Nat) × List ForeignCall :=
  let prop : MaybeUninit cudaDeviceProp := MaybeUninit.uninit
  let r := sys.cudaGetDeviceProperties_v2 rt prop device
  match r.1.result with
  | Except.error e => (some (Except.error e), r.2.2)
  | Except.ok _ =>
    match r.2.1.assume_init with
    | none => (none, r.2.2)
    | some p => (some (Except.ok p.totalGlobalMem), r.2.2)

/-- `device::get_attribute` from `result.rs`: an uninitialized local, one
call to `sys::cudaDeviceGetAttribute`, the `?` early return on a non-success
status, otherwise `assume_init` on the local. -/
def get_attribute (rt : CudaRuntime) (device : CudartDevice)
    (attr : cudaDeviceAttr) :
    Option (Except CudartError Int) × List ForeignCall :=
  let value : MaybeUninit Int := MaybeUninit.uninit
  let r := sys.cudaDeviceGetAttribute rt value attr device
  match r.1.result with
  | Except.error e => (some (Except.error e), r.2.2)
  | Except.ok _ =>
    match r.2.1.assume_init with
    | none => (none, r.2.2)
    | some v => (some (Except.ok v), r.2.2)

end device

namespace occupancy

/-- `occupancy::available_dynamic_shared_mem_per_block` from `result.rs`: an
uninitialized local, one call to
`sys::cudaOccupancyAvailableDynamicSMemPerBlock`, the `?` early return on a
non-success status, otherwise `assume_init` on the local. -/
def available_dynamic_shared_mem_per_block (rt : CudaRuntime)
    (f : cudaFunction_t) (num_blocks block_size : Int) :
    Option (Except CudartError Nat) × List ForeignCall :=
  let dynamic_smem_size : MaybeUninit Nat := MaybeUninit.uninit
  let r := sys.cudaOccupancyAvailableDynamicSMemPerBlock rt dynamic_smem_size f num_blocks block_size
  match r.1.result with
  | Except.error e => (some (Except.error e), r.2.2)
  | Except.ok _ =>
    match r.2.1.assume_init with
    | none => (none, r.2.2)
    | some v => (some (Except.ok v), r.2.2)

/-- `occupancy::max_active_block_per_multiprocessor` from `result.rs`: an
uninitialized local, one call to
`sys::cudaOccupancyMaxActiveBlocksPerMultiprocessor`, the `?` early return on
a non-success status, otherwise `assume_init` on the local. -/
def max_active_block_per_multiprocessor (rt : CudaRuntime)
    (f : cudaFunction_t) (block_size : Int) (dynamic_smem_size : Nat) :
    Option (Except CudartError Int) × List ForeignCall :=
  let num_blocks : MaybeUninit Int := MaybeUninit.uninit
  let r := sys.cudaOccupancyMaxActiveBlocksPerMultiprocessor rt num_blocks f block_size dynamic_smem_size
  match r.1.result with
  | Except.error e => (some (Except.error e), r.2.2)
  | Except.ok _ =>
    match r.2.1.assume_init with
    | none => (none, r.2.2)
    | some v => (some (Except.ok v), r.2.2)

/-- `occupancy::max_active_block_per_multiprocessor_with_flags` from
`result.rs`: an uninitialized local, one call to
`sys::cudaOccupancyMaxActiveBlocksPerMultiprocessorWithFlags`, the `?` early
return on a non-success status, otherwise `assume_init` on the local. -/
def max_active_block_per_multiprocessor_with_flags (rt : CudaRuntime)
    (f : cudaFunction_t) (block_size : Int) (dynamic_smem_size : Nat)
    (flags : Nat) :
    Option (Except CudartError Int) × List ForeignCall :=
  let num_blocks : MaybeUninit Int := MaybeUninit.uninit
  let r := sys.cudaOccupancyMaxActiveBlocksPerMultiprocessorWithFlags rt num_blocks f block_size dynamic_smem_size flags
  match r.1.result with
  | Except.error e => (some (Except.error e), r.2.2)
  | Except.ok _ =>
    match r.2.1.assume_init with
    | none => (none, r.2.2)
    | some v => (some (Except.ok v), r.2.2)

end occupancy

/-- Modelled from the spec: "For all non-success status codes, the
translation must yield an error whose stored code equals the input and whose
name/description are non-empty" — the native library (not under `src/`)
returns non-empty name and description strings for every non-success
status. -/
def CudaRuntime.errorStringsNonEmpty (rt : CudaRuntime) : Prop :=
  ∀ c : cudaError_t, c ≠ cudaError_t.cudaSuccess →
    rt.getErrorName c ≠ [] ∧ rt.getErrorString c ≠ []

/-- Modelled from the spec: "Device count, when greater than zero, must make
every identifier in [0, count) acceptable to the property and attribute
queries without error" — a guarantee of the native library (not under
`src/`) about identifiers below the count it itself reported. -/
def CudaRuntime.validDevicesAccepted (rt : CudaRuntime) : Prop :=
  rt.getDeviceCount.1 = cudaError_t.cudaSuccess →
  ∀ d : CudartDevice, 0 ≤ d → d < rt.getDeviceCount.2 →
    (rt.getDeviceProperties d).1 = cudaError_t.cudaSuccess ∧
    ∀ a : cudaDeviceAttr, (rt.deviceGetAttribute a d).1 = cudaError_t.cudaSuccess

/-! Concrete runtimes used to witness the hypotheses of the theorems below:
one whose every entry point fails with status code 1, one whose every entry
point succeeds. -/

/-- A runtime oracle whose every foreign entry point reports status code 1
(a non-success status) and writes nothing. -/
def rtFail : CudaRuntime :=
  ⟨(⟨1⟩, 0), (⟨1⟩, 0), fun _ => (⟨1⟩, ⟨0, 0⟩), fun _ _ => (⟨1⟩, 0),
   fun _ _ _ => (⟨1⟩, 0), fun _ _ _ => (⟨1⟩, 0), fun _ _ _ _ => (⟨1⟩, 0),
   fun _ => ['E'], fun _ => ['E']⟩

/-- A runtime oracle whose every foreign entry point succeeds: two visible
devices, a 4096-byte property record, attribute value 3, sample occupancy
figures, and non-empty error-introspection strings. -/
def rtOk : CudaRuntime :=
  ⟨(⟨0⟩, 0), (⟨0⟩, 2), fun _ => (⟨0⟩, ⟨4096, 7⟩), fun _ _ => (⟨0⟩, 3),
   fun _ _ _ => (⟨0⟩, 1024), fun _ _ _ => (⟨0⟩, 8), fun _ _ _ _ => (⟨0⟩, 16),
   fun _ => ['c', 'u', 'd', 'a'], fun _ => ['o', 'o', 'm']⟩

/-- C1: `cudaError_t::result` returns `Ok(())` exactly when the code is the
distinguished success value `cudaSuccess`, and on every other code it
returns `Err(CudartError(c))` whose stored code is the input code itself. -/
theorem result_ok_iff_success (c : cudaError_t) :
    (c.result = Except.ok () ↔ c = cudaError_t.cudaSuccess) ∧
    (c ≠ cudaError_t.cudaSuccess → c.result = Except.error (CudartError.mk c)) := by
  refine ⟨⟨fun h => ?_, fun h => ?_⟩, fun h => ?_⟩
  · by_contra hc
    simp [cudaError_t.result, hc] at h
  · simp [cudaError_t.result, h]
  · simp [cudaError_t.result, h]

/-- Witness for C1 at the concrete non-success code 1. -/
theorem result_ok_iff_success_witness :
    cudaError_t.mk 1 ≠ cudaError_t.cudaSuccess ∧
    cudaError_t.result (cudaError_t.mk 1) =
      Except.error (CudartError.mk (cudaError_t.mk 1)) :=
  ⟨by decide, (result_ok_iff_success (cudaError_t.mk 1)).2 (by decide)⟩

/-- C2: every wrapped operation that fills an output buffer (device count,
device property, total memory, device attribute, and the three occupancy
queries) reads its uninitialized storage only on the success path — the
result is never the undefined-behavior marker `none` — and on every
non-success status it returns the typed error without reading the buffer. -/
theorem assume_init_only_after_success (rt : CudaRuntime) (d : CudartDevice)
    (a : cudaDeviceAttr) (f : cudaFunction_t) (nb bs : Int) (sm fl : Nat) :
    ((device.get_count rt).1.isSome ∧
      (rt.getDeviceCount.1 ≠ cudaError_t.cudaSuccess →
        (device.get_count rt).1 =
          some (Except.error (CudartError.mk rt.getDeviceCount.1)))) ∧
    ((device.get_property rt d).1.isSome ∧
      ((rt.getDeviceProperties d).1 ≠ cudaError_t.cudaSuccess →
        (device.get_property rt d).1 =
          some (Except.error (CudartError.mk (rt.getDeviceProperties d).1)))) ∧
    ((device.total_mem rt d).1.isSome ∧
      ((rt.getDeviceProperties d).1 ≠ cudaError_t.cudaSuccess →
        (device.total_mem rt d).1 =
          some (Except.error (CudartError.mk (rt.getDeviceProperties d).1)))) ∧
    ((device.get_attribute rt d a).1.isSome ∧
      ((rt.deviceGetAttribute a d).1 ≠ cudaError_t.cudaSuccess →
        (device.get_attribute rt d a).1 =
          some (Except.error (CudartError.mk (rt.deviceGetAttribute a d).1)))) ∧
    ((occupancy.available_dynamic_shared_mem_per_block rt f nb bs).1.isSome ∧
      ((rt.occupancyAvailableDynamicSMemPerBlock f nb bs).1 ≠ cudaError_t.cudaSuccess →
        (occupancy.available_dynamic_shared_mem_per_block rt f nb bs).1 =
          some (Except.error
            (CudartError.mk (rt.occupancyAvailableDynamicSMemPerBlock f nb bs).1)))) ∧
    ((occupancy.max_active_block_per_multiprocessor rt f bs sm).1.isSome ∧
      ((rt.occupancyMaxActiveBlocksPerMultiprocessor f bs sm).1 ≠ cudaError_t.cudaSuccess →
        (occupancy.max_active_block_per_multiprocessor rt f bs sm).1 =
          some (Except.error
            (CudartError.mk (rt.occupancyMaxActiveBlocksPerMultiprocessor f bs sm).1)))) ∧
    ((occupancy.max_active_block_per_multiprocessor_with_flags rt f bs sm fl).1.isSome ∧
      ((rt.occupancyMaxActiveBlocksPerMultiprocessorWithFlags f bs sm fl).1 ≠ cudaError_t.cudaSuccess →
        (occupancy.max_active_block_per_multiprocessor_with_flags rt f bs sm fl).1 =
          some (Except.error
            (CudartError.mk (rt.occupancyMaxActiveBlocksPerMultiprocessorWithFlags f bs sm fl).1)))) := by
  refine ⟨⟨?_, ?_⟩, ⟨?_, ?_⟩, ⟨?_, ?_⟩, ⟨?_, ?_⟩, ⟨?_, ?_⟩, ⟨?_, ?_⟩, ⟨?_, ?_⟩⟩
  · by_cases h : rt.getDeviceCount.1 = cudaError_t.cudaSuccess <;>
      simp [device.get_count, sys.cudaGetDeviceCount, cudaError_t.result, h,
        MaybeUninit.assume_init]
  · intro h
    simp [device.get_count, sys.cudaGetDeviceCount, cudaError_t.result, h]
  · by_cases h : (rt.getDeviceProperties d).1 = cudaError_t.cudaSuccess <;>
      simp [device.get_property, sys.cudaGetDeviceProperties_v2, cudaError_t.result, h,
        MaybeUninit.assume_init]
  · intro h
    simp [device.get_property, sys.cudaGetDeviceProperties_v2, cudaError_t.result, h]
  · by_cases h : (rt.getDeviceProperties d).1 = cudaError_t.cudaSuccess <;>
      simp [device.total_mem, sys.cudaGetDeviceProperties_v2, cudaError_t.result, h,
        MaybeUninit.assume_init]
  · intro h
    simp [device.total_mem, sys.cudaGetDeviceProperties_v2, cudaError_t.result, h]
  · by_cases h : (rt.deviceGetAttribute a d).1 = cudaError_t.cudaSuccess <;>
      simp [device.get_attribute, sys.cudaDeviceGetAttribute, cudaError_t.result, h,
        MaybeUninit.assume_init]
  · intro h
    simp [device.get_attribute, sys.cudaDeviceGetAttribute, cudaError_t.result, h]
  · by_cases h : (rt.occupancyAvailableDynamicSMemPerBlock f nb bs).1 = cudaError_t.cudaSuccess <;>
      simp [occupancy.available_dynamic_shared_mem_per_block,
        sys.cudaOccupancyAvailableDynamicSMemPerBlock, cudaError_t.result, h,
        MaybeUninit.assume_init]
  · intro h
    simp [occupancy.available_dynamic_shared_mem_per_block,
      sys.cudaOccupancyAvailableDynamicSMemPerBlock, cudaError_t.result, h]
  · by_cases h : (rt.occupancyMaxActiveBlocksPerMultiprocessor f bs sm).1 = cudaError_t.cudaSuccess <;>
      simp [occupancy.max_active_block_per_multiprocessor,
        sys.cudaOccupancyMaxActiveBlocksPerMultiprocessor, cudaError_t.result, h,
        MaybeUninit.assume_init]
  · intro h
    simp [occupancy.max_active_block_per_multiprocessor,
      sys.cudaOccupancyMaxActiveBlocksPerMultiprocessor, cudaError_t.result, h]
  · by_cases h : (rt.occupancyMaxActiveBlocksPerMultiprocessorWithFlags f bs sm fl).1 = cudaError_t.cudaSuccess <;>
      simp [occupancy.max_active_block_per_multiprocessor_with_flags,
        sys.cudaOccupancyMaxActiveBlocksPerMultiprocessorWithFlags, cudaError_t.result, h,
        MaybeUninit.assume_init]
  · intro h
    simp [occupancy.max_active_block_per_multiprocessor_with_flags,
      sys.cudaOccupancyMaxActiveBlocksPerMultiprocessorWithFlags, cudaError_t.result, h]

/-- Witness for C2 at the all-failing runtime: the wrapped device-count query
returns the typed error carrying status code 1 and never the
undefined-behavior marker. -/
theorem assume_init_only_after_success_witness :
    (device.get_count rtFail).1 =
      some (Except.error (CudartError.mk (cudaError_t.mk 1))) :=
  (assume_init_only_after_success rtFail 0 0 0 0 0 0 0).1.2 (by decide)

/-- C3: `device::total_mem` succeeds with `m` exactly when
`device::get_property` succeeds (through the same foreign call path, hence
with the same oracle answer) with a record whose `totalGlobalMem` field is
`m`, and `total_mem` fails with exactly the error `get_property` fails
with. -/
theorem total_mem_eq_property_field (rt : CudaRuntime) (d : CudartDevice) :
    (∀ m : Nat, (device.total_mem rt d).1 = some (Except.ok m) ↔
      ∃ p : cudaDeviceProp, (device.get_property rt d).1 = some (Except.ok p) ∧
        p.totalGlobalMem = m) ∧
    (∀ e : CudartError, (device.total_mem rt d).1 = some (Except.error e) ↔
      (device.get_property rt d).1 = some (Except.error e)) := by
  by_cases h : (rt.getDeviceProperties d).1 = cudaError_t.cudaSuccess <;>
    constructor <;> intro x <;>
      simp [device.total_mem, device.get_property, sys.cudaGetDeviceProperties_v2,
        cudaError_t.result, h, MaybeUninit.assume_init, eq_comm]

/-- Witness for C3 at the all-succeeding runtime: total memory of device 0 is
the `totalGlobalMem` field (4096) of the property record returned for
device 0. -/
theorem total_mem_eq_property_field_witness :
    (device.total_mem rtOk 0).1 = some (Except.ok 4096) :=
  ((total_mem_eq_property_field rtOk 0).1 4096).2
    ⟨cudaDeviceProp.mk 4096 7, rfl, rfl⟩

/-- C4: every wrapped device and occupancy operation performs exactly one
foreign call per invocation (its trace is the singleton of that call) and
never retries: on the success status it returns the value the callee wrote,
on any non-success status it immediately returns the typed error. -/
theorem one_foreign_call_no_retry (rt : CudaRuntime) (d : CudartDevice)
    (a : cudaDeviceAttr) (f : cudaFunction_t) (nb bs : Int) (sm fl : Nat) :
    ((device.get rt).2 = [ForeignCall.cudaGetDevice] ∧
      (rt.getDevice.1 = cudaError_t.cudaSuccess →
        (device.get rt).1 = Except.ok rt.getDevice.2) ∧
      (rt.getDevice.1 ≠ cudaError_t.cudaSuccess →
        (device.get rt).1 = Except.error (CudartError.mk rt.getDevice.1))) ∧
    ((device.get_count rt).2 = [ForeignCall.cudaGetDeviceCount] ∧
      (rt.getDeviceCount.1 = cudaError_t.cudaSuccess →
        (device.get_count rt).1 = some (Except.ok rt.getDeviceCount.2)) ∧
      (rt.getDeviceCount.1 ≠ cudaError_t.cudaSuccess →
        (device.get_count rt).1 =
          some (Except.error (CudartError.mk rt.getDeviceCount.1)))) ∧
    ((device.get_property rt d).2 = [ForeignCall.cudaGetDeviceProperties_v2 d] ∧
      ((rt.getDeviceProperties d).1 = cudaError_t.cudaSuccess →
        (device.get_property rt d).1 =
          some (Except.ok (rt.getDeviceProperties d).2)) ∧
      ((rt.getDeviceProperties d).1 ≠ cudaError_t.cudaSuccess →
        (device.get_property rt d).1 =
          some (Except.error (CudartError.mk (rt.getDeviceProperties d).1)))) ∧
    ((device.total_mem rt d).2 = [ForeignCall.cudaGetDeviceProperties_v2 d] ∧
      ((rt.getDeviceProperties d).1 = cudaError_t.cudaSuccess →
        (device.total_mem rt d).1 =
          some (Except.ok (rt.getDeviceProperties d).2.totalGlobalMem)) ∧
      ((rt.getDeviceProperties d).1 ≠ cudaError_t.cudaSuccess →
        (device.total_mem rt d).1 =
          some (Except.error (CudartError.mk (rt.getDeviceProperties d).1)))) ∧
    ((device.get_attribute rt d a).2 = [ForeignCall.cudaDeviceGetAttribute a d] ∧
      ((rt.deviceGetAttribute a d).1 = cudaError_t.cudaSuccess →
        (device.get_attribute rt d a).1 =
          some (Except.ok (rt.deviceGetAttribute a d).2)) ∧
      ((rt.deviceGetAttribute a d).1 ≠ cudaError_t.cudaSuccess →
        (device.get_attribute rt d a).1 =
          some (Except.error (CudartError.mk (rt.deviceGetAttribute a d).1)))) ∧
    ((occupancy.available_dynamic_shared_mem_per_block rt f nb bs).2 =
        [ForeignCall.cudaOccupancyAvailableDynamicSMemPerBlock f nb bs] ∧
      ((rt.occupancyAvailableDynamicSMemPerBlock f nb bs).1 = cudaError_t.cudaSuccess →
        (occupancy.available_dynamic_shared_mem_per_block rt f nb bs).1 =
          some (Except.ok (rt.occupancyAvailableDynamicSMemPerBlock f nb bs).2)) ∧
      ((rt.occupancyAvailableDynamicSMemPerBlock f nb bs).1 ≠ cudaError_t.cudaSuccess →
        (occupancy.available_dynamic_shared_mem_per_block rt f nb bs).1 =
          some (Except.error
            (CudartError.mk (rt.occupancyAvailableDynamicSMemPerBlock f nb bs).1)))) ∧
    ((occupancy.max_active_block_per_multiprocessor rt f bs sm).2 =
        [ForeignCall.cudaOccupancyMaxActiveBlocksPerMultiprocessor f bs sm] ∧
      ((rt.occupancyMaxActiveBlocksPerMultiprocessor f bs sm).1 = cudaError_t.cudaSuccess →
        (occupancy.max_active_block_per_multiprocessor rt f bs sm).1 =
          some (Except.ok (rt.occupancyMaxActiveBlocksPerMultiprocessor f bs sm).2)) ∧
      ((rt.occupancyMaxActiveBlocksPerMultiprocessor f bs sm).1 ≠ cudaError_t.cudaSuccess →
        (occupancy.max_active_block_per_multiprocessor rt f bs sm).1 =
          some (Except.error
            (CudartError.mk (rt.occupancyMaxActiveBlocksPerMultiprocessor f bs sm).1)))) ∧
    ((occupancy.max_active_block_per_multiprocessor_with_flags rt f bs sm fl).2 =
        [ForeignCall.cudaOccupancyMaxActiveBlocksPerMultiprocessorWithFlags f bs sm fl] ∧
      ((rt.occupancyMaxActiveBlocksPerMultiprocessorWithFlags f bs sm fl).1 = cudaError_t.cudaSuccess →
        (occupancy.max_active_block_per_multiprocessor_with_flags rt f bs sm fl).1 =
          some (Except.ok (rt.occupancyMaxActiveBlocksPerMultiprocessorWithFlags f bs sm fl).2)) ∧
      ((rt.occupancyMaxActiveBlocksPerMultiprocessorWithFlags f bs sm fl).1 ≠ cudaError_t.cudaSuccess →
        (occupancy.max_active_block_per_multiprocessor_with_flags rt f bs sm fl).1 =
          some (Except.error
            (CudartError.mk (rt.occupancyMaxActiveBlocksPerMultiprocessorWithFlags f bs sm fl).1)))) := by
  refine ⟨⟨?_, fun h => ?_, fun h => ?_⟩, ⟨?_, fun h => ?_, fun h => ?_⟩,
    ⟨?_, fun h => ?_, fun h => ?_⟩, ⟨?_, fun h => ?_, fun h => ?_⟩,
    ⟨?_, fun h => ?_, fun h => ?_⟩, ⟨?_, fun h => ?_, fun h => ?_⟩,
    ⟨?_, fun h => ?_, fun h => ?_⟩, ⟨?_, fun h => ?_, fun h => ?_⟩⟩
  · by_cases h : rt.getDevice.1 = cudaError_t.cudaSuccess <;>
      simp [device.get, sys.cudaGetDevice, cudaError_t.result, h]
  · simp [device.get, sys.cudaGetDevice, cudaError_t.result, h]
  · simp [device.get, sys.cudaGetDevice, cudaError_t.result, h]
  · by_cases h : rt.getDeviceCount.1 = cudaError_t.cudaSuccess <;>
      simp [device.get_count, sys.cudaGetDeviceCount, cudaError_t.result, h,
        MaybeUninit.assume_init]
  · simp [device.get_count, sys.cudaGetDeviceCount, cudaError_t.result, h,
      MaybeUninit.assume_init]
  · simp [device.get_count, sys.cudaGetDeviceCount, cudaError_t.result, h]
  · by_cases h : (rt.getDeviceProperties d).1 = cudaError_t.cudaSuccess <;>
      simp [device.get_property, sys.cudaGetDeviceProperties_v2, cudaError_t.result, h,
        MaybeUninit.assume_init]
  · simp [device.get_property, sys.cudaGetDeviceProperties_v2, cudaError_t.result, h,
      MaybeUninit.assume_init]
  · simp [device.get_property, sys.cudaGetDeviceProperties_v2, cudaError_t.result, h]
  · by_cases h : (rt.getDeviceProperties d).1 = cudaError_t.cudaSuccess <;>
      simp [device.total_mem, sys.cudaGetDeviceProperties_v2, cudaError_t.result, h,
        MaybeUninit.assume_init]
  · simp [device.total_mem, sys.cudaGetDeviceProperties_v2, cudaError_t.result, h,
      MaybeUninit.assume_init]
  · simp [device.total_mem, sys.cudaGetDeviceProperties_v2, cudaError_t.result, h]
  · by_cases h : (rt.deviceGetAttribute a d).1 = cudaError_t.cudaSuccess <;>
      simp [device.get_attribute, sys.cudaDeviceGetAttribute, cudaError_t.result, h,
        MaybeUninit.assume_init]
  · simp [device.get_attribute, sys.cudaDeviceGetAttribute, cudaError_t.result, h,
      MaybeUninit.assume_init]
  · simp [device.get_attribute, sys.cudaDeviceGetAttribute, cudaError_t.result, h]
  · by_cases h : (rt.occupancyAvailableDynamicSMemPerBlock f nb bs).1 = cudaError_t.cudaSuccess <;>
      simp [occupancy.available_dynamic_shared_mem_per_block,
        sys.cudaOccupancyAvailableDynamicSMemPerBlock, cudaError_t.result, h,
        MaybeUninit.assume_init]
  · simp [occupancy.available_dynamic_shared_mem_per_block,
      sys.cudaOccupancyAvailableDynamicSMemPerBlock, cudaError_t.result, h,
      MaybeUninit.assume_init]
  · simp [occupancy.available_dynamic_shared_mem_per_block,
      sys.cudaOccupancyAvailableDynamicSMemPerBlock, cudaError_t.result, h]
  · by_cases h : (rt.occupancyMaxActiveBlocksPerMultiprocessor f bs sm).1 = cudaError_t.cudaSuccess <;>
      simp [occupancy.max_active_block_per_multiprocessor,
        sys.cudaOccupancyMaxActiveBlocksPerMultiprocessor, cudaError_t.result, h,
        MaybeUninit.assume_init]
  · simp [occupancy.max_active_block_per_multiprocessor,
      sys.cudaOccupancyMaxActiveBlocksPerMultiprocessor, cudaError_t.result, h,
      MaybeUninit.assume_init]
  · simp [occupancy.max_active_block_per_multiprocessor,
      sys.cudaOccupancyMaxActiveBlocksPerMultiprocessor, cudaError_t.result, h]
  · by_cases h : (rt.occupancyMaxActiveBlocksPerMultiprocessorWithFlags f bs sm fl).1 = cudaError_t.cudaSuccess <;>
      simp [occupancy.max_active_block_per_multiprocessor_with_flags,
        sys.cudaOccupancyMaxActiveBlocksPerMultiprocessorWithFlags, cudaError_t.result, h,
        MaybeUninit.assume_init]
  · simp [occupancy.max_active_block_per_multiprocessor_with_flags,
      sys.cudaOccupancyMaxActiveBlocksPerMultiprocessorWithFlags, cudaError_t.result, h,
      MaybeUninit.assume_init]
  · simp [occupancy.max_active_block_per_multiprocessor_with_flags,
      sys.cudaOccupancyMaxActiveBlocksPerMultiprocessorWithFlags, cudaError_t.result, h]

/-- Witness for C4: at the all-succeeding runtime the current-device query
returns the oracle's device, and at the all-failing runtime it returns the
typed error with status code 1. -/
theorem one_foreign_call_no_retry_witness :
    (device.get rtOk).1 = Except.ok 0 ∧
    (device.get rtFail).1 = Except.error (CudartError.mk (cudaError_t.mk 1)) :=
  ⟨(one_foreign_call_no_retry rtOk 0 0 0 0 0 0 0).1.2.1 rfl,
   (one_foreign_call_no_retry rtFail 0 0 0 0 0 0 0).1.2.2 (by decide)⟩

/-- C5: requesting the property of the device identifier equal to the
reported device count — assuming the foreign call reports a non-success
status for that out-of-range identifier — yields the typed error carrying
that status: no crash (the result is a proper value, never the
undefined-behavior marker) and no property record of any kind. -/
theorem get_property_out_of_range_errors (rt : CudaRuntime)
    (h : (rt.getDeviceProperties rt.getDeviceCount.2).1 ≠ cudaError_t.cudaSuccess) :
    (device.get_property rt rt.getDeviceCount.2).1 =
      some (Except.error
        (CudartError.mk (rt.getDeviceProperties rt.getDeviceCount.2).1)) ∧
    ∀ p : cudaDeviceProp,
      (device.get_property rt rt.getDeviceCount.2).1 ≠ some (Except.ok p) := by
  constructor
  · simp [device.get_property, sys.cudaGetDeviceProperties_v2, cudaError_t.result, h]
  · intro p
    simp [device.get_property, sys.cudaGetDeviceProperties_v2, cudaError_t.result, h]

/-- Witness for C5 at the all-failing runtime (reported count 0, property
query for device 0 failing with status code 1). -/
theorem get_property_out_of_range_errors_witness :
    (device.get_property rtFail rtFail.getDeviceCount.2).1 =
      some (Except.error (CudartError.mk (cudaError_t.mk 1))) :=
  (get_property_out_of_range_errors rtFail (by decide)).1

/-- C6: the derived structural equality on `CudartError` is reflexive,
distinguishes errors with different stored status codes, and holds exactly
when the stored codes are equal. -/
theorem cudart_error_eq_structural (a b : CudartError) :
    CudartError.eq a a = true ∧
    (CudartError.eq a b = true ↔ a.code = b.code) ∧
    (a.code ≠ b.code → CudartError.eq a b = false) := by
  refine ⟨?_, ?_, fun h => ?_⟩
  · simp [CudartError.eq]
  · simp [CudartError.eq]
  · simp [CudartError.eq, h]

/-- Witness for C6: errors with the distinct codes 0 and 1 compare
unequal. -/
theorem cudart_error_eq_structural_witness :
    CudartError.eq (CudartError.mk (cudaError_t.mk 0))
      (CudartError.mk (cudaError_t.mk 1)) = false :=
  (cudart_error_eq_structural (CudartError.mk (cudaError_t.mk 0))
    (CudartError.mk (cudaError_t.mk 1))).2.2 (by decide)

/-- C7: when the wrapped device count succeeds with a positive count — and
the native runtime honors its contract of accepting every identifier below
the count it reported — every identifier in `[0, count)` is accepted without
error by both the property query and the attribute query. -/
theorem valid_ids_accepted (rt : CudaRuntime) (hwf : rt.validDevicesAccepted)
    (c : Int) (hc : (device.get_count rt).1 = some (Except.ok c)) (hpos : 0 < c)
    (d : CudartDevice) (hd0 : 0 ≤ d) (hdc : d < c) (a : cudaDeviceAttr) :
    (∃ p : cudaDeviceProp, (device.get_property rt d).1 = some (Except.ok p)) ∧
    (∃ v : Int, (device.get_attribute rt d a).1 = some (Except.ok v)) := by
  by_cases h : rt.getDeviceCount.1 = cudaError_t.cudaSuccess
  · have hc2 : rt.getDeviceCount.2 = c := by
      simpa [device.get_count, sys.cudaGetDeviceCount, cudaError_t.result, h,
        MaybeUninit.assume_init] using hc
    obtain ⟨hp, ha⟩ := hwf h d hd0 (by rw [hc2]; exact hdc)
    refine ⟨⟨(rt.getDeviceProperties d).2, ?_⟩, ⟨(rt.deviceGetAttribute a d).2, ?_⟩⟩
    · simp [device.get_property, sys.cudaGetDeviceProperties_v2, cudaError_t.result,
        hp, MaybeUninit.assume_init]
    · simp [device.get_attribute, sys.cudaDeviceGetAttribute, cudaError_t.result,
        ha a, MaybeUninit.assume_init]
  · exfalso
    simp [device.get_count, sys.cudaGetDeviceCount, cudaError_t.result, h] at hc

/-- Witness for C7 at the all-succeeding runtime (count 2, identifier 1,
attribute 0). -/
theorem valid_ids_accepted_witness :
    (∃ p : cudaDeviceProp, (device.get_property rtOk 1).1 = some (Except.ok p)) ∧
    (∃ v : Int, (device.get_attribute rtOk 1 0).1 = some (Except.ok v)) :=
  valid_ids_accepted rtOk (fun _ d _ _ => ⟨rfl, fun _ => rfl⟩) 2 rfl
    (by decide) 1 (by decide) (by decide) 0

/-- C8: each invocation of the name accessor and of the description accessor
performs exactly one foreign query (`cudaGetErrorName`, resp.
`cudaGetErrorString`) on the stored code — the whole trace of an invocation
is that single call, so nothing is cached — and, the native runtime honoring
its contract of non-empty introspection strings, for a non-success stored
code both returned strings are non-empty. -/
theorem error_accessors_one_query_nonempty (rt : CudaRuntime)
    (hwf : rt.errorStringsNonEmpty) (e : CudartError)
    (he : e.code ≠ cudaError_t.cudaSuccess) :
    (e.error_name rt).2 = [ForeignCall.cudaGetErrorName e.code] ∧
    (e.error_string rt).2 = [ForeignCall.cudaGetErrorString e.code] ∧
    (e.error_name rt).1 ≠ [] ∧
    (e.error_string rt).1 ≠ [] := by
  obtain ⟨hn, hs⟩ := hwf e.code he
  exact ⟨rfl, rfl, hn, hs⟩

/-- Witness for C8 at the all-succeeding runtime and the error with status
code 1. -/
theorem error_accessors_one_query_nonempty_witness :
    (CudartError.mk (cudaError_t.mk 1)).error_name rtOk =
      (['c', 'u', 'd', 'a'], [ForeignCall.cudaGetErrorName (cudaError_t.mk 1)]) ∧
    (CudartError.mk (cudaError_t.mk 1)).error_string rtOk =
      (['o', 'o', 'm'], [ForeignCall.cudaGetErrorString (cudaError_t.mk 1)]) := by
  have h := error_accessors_one_query_nonempty rtOk
    (fun _ _ => ⟨List.cons_ne_nil _ _, List.cons_ne_nil _ _⟩)
    (CudartError.mk (cudaError_t.mk 1)) (by decide)
  exact ⟨Prod.ext rfl h.1, Prod.ext rfl h.2.1⟩

/-- C9: the Debug rendering of an error contains the raw status code and the
description string obtained from the description accessor, and the Display
rendering is identical to the Debug rendering. -/
theorem fmt_debug_display (rt : CudaRuntime) (e : CudartError) :
    (∃ l r : List Char,
      ((e.fmtDebug rt).1).data = l ++ (cudaError_t.fmtDebug e.code).data ++ r) ∧
    (∃ l r : List Char,
      ((e.fmtDebug rt).1).data = l ++ (e.error_string rt).1 ++ r) ∧
    e.fmtDisplay rt = e.fmtDebug rt := by
  refine ⟨⟨("CudartError" ++ "(").data,
      (", " ++ cstrFmtDebug (e.error_string rt).1 ++ ")").data, ?_⟩,
    ⟨("CudartError" ++ "(" ++ cudaError_t.fmtDebug e.code ++ ", " ++ "\"").data,
      ("\"" ++ ")").data, ?_⟩, rfl⟩
  · simp [CudartError.fmtDebug, CudartError.error_string, sys.cudaGetErrorString,
      cstrFmtDebug]
  · simp [CudartError.fmtDebug, CudartError.error_string, sys.cudaGetErrorString,
      cstrFmtDebug]

/-- C10: the public `init` function is a pure no-op: it performs no foreign
call, cannot fail, and always returns unit. -/
theorem init_is_noop : init.1 = () ∧ init.2 = [] :=
  ⟨rfl, rfl⟩
